import Mathlib

/-!
Shallow embedding of the neuralynx assistant pipelines
(business-query-generator, domain-analyzer, content-generator and
content-optimization, one Python module each).

Python values are modelled by `PyVal`, Python exceptions raised by the
embedded fragments by `Except PyErr`, and the external language-model agent
(the `Runner.run` call together with the pydantic validation performed by
`output_type`) by a function parameter from the synthesized prompt string to
`Except Unit <output schema>`: `Except.ok` is a schema-conforming agent
result, `Except.error ()` covers both an agent exception and a
non-conforming agent answer, which the source treats identically.
-/

/-- The universe of Python values that can appear in an inbound payload or
in a result envelope: strings, integers, None, lists and string-keyed
dicts. -/
inductive PyVal where
  | str : String → PyVal
  | int : Int → PyVal
  | none : PyVal
  | list : List PyVal → PyVal
  | dict : List (String × PyVal) → PyVal

/-- Python exceptions that the embedded code fragments can raise:
`attributeError` models calling `.get` or `.lower()` on a value that lacks
the method, `typeError` models `str.join` over non-string items. -/
inductive PyErr where
  | attributeError
  | typeError
deriving DecidableEq

/-- First binding of a key in an association list; models Python dict
lookup (an assoc list with shadowing represents a dict). -/
def lookupKey : List (String × PyVal) → String → Option PyVal
  | [], _ => Option.none
  | (k, v) :: rest, key => if k == key then some v else lookupKey rest key

/-- Python `d.get(key, default)` on a dict. -/
def dictGet (kvs : List (String × PyVal)) (key : String) (default : PyVal) : PyVal :=
  (lookupKey kvs key).getD default

/-- Python `key in d` on a dict. -/
def hasKey (kvs : List (String × PyVal)) (key : String) : Bool :=
  (lookupKey kvs key).isSome

/-- Whether a value is a Python mapping (dict). -/
def PyVal.isDict : PyVal → Bool
  | .dict _ => true
  | _ => false

/-- A single-quote character, used by the Python repr of strings. -/
def squote : String := String.singleton (Char.ofNat 39)

mutual

/-- Python `repr` on the modelled value universe (string escaping inside
reprs is not modelled: a string is rendered between plain single
quotes). -/
def pyRepr : PyVal → String
  | .str s => squote ++ s ++ squote
  | .int n => toString n
  | .none => "None"
  | .list xs => "[" ++ pyReprSep xs ++ "]"
  | .dict kvs => "\x7b" ++ pyReprKVs kvs ++ "\x7d"

/-- Comma-separated reprs of the items of a list. -/
def pyReprSep : List PyVal → String
  | [] => ""
  | [x] => pyRepr x
  | x :: y :: rest => pyRepr x ++ ", " ++ pyReprSep (y :: rest)

/-- Comma-separated `key: value` reprs of the entries of a dict. -/
def pyReprKVs : List (String × PyVal) → String
  | [] => ""
  | [(k, v)] => squote ++ k ++ squote ++ ": " ++ pyRepr v
  | (k, v) :: p :: rest =>
      squote ++ k ++ squote ++ ": " ++ pyRepr v ++ ", " ++ pyReprKVs (p :: rest)

end

/-- Python `str()`, as used by f-string interpolation: the identity on
strings, `repr` on the other modelled values. -/
def pyStr : PyVal → String
  | .str s => s
  | v => pyRepr v

/-- Python `str.lower()`, modelled characterwise. -/
def strLower (s : String) : String := ⟨s.data.map Char.toLower⟩

/-- Whether `needle` is a prefix of `hay` (over characters). -/
def charsPrefix : List Char → List Char → Bool
  | [], _ => true
  | _ :: _, [] => false
  | a :: as, b :: bs => a == b && charsPrefix as bs

/-- Whether `needle` occurs contiguously inside `hay` (over characters). -/
def charsContains (needle : List Char) : List Char → Bool
  | [] => needle.isEmpty
  | c :: rest => charsPrefix needle (c :: rest) || charsContains needle rest

/-- Python `needle in hay` on strings: contiguous substring test. -/
def strContains (hay needle : String) : Bool := charsContains needle.data hay.data

/-- `needle` occurs verbatim inside `hay` (propositional form, used to
state that a request field appears in a synthesized prompt). -/
def strAppears (needle hay : String) : Prop := ∃ l r, hay = l ++ needle ++ r

/-- Helper of `pyJoinComma`: collects the items of a Python list provided
they are all strings, raising TypeError otherwise. -/
def joinStrs : List PyVal → Except PyErr (List String)
  | [] => .ok []
  | .str s :: rest => (joinStrs rest).map (fun l => s :: l)
  | _ :: _ => .error .typeError

/-- Python `", ".join(v)`: joins an iterable of strings with `", "`,
raising TypeError on non-string items or a non-iterable value; iterating a
string yields its characters and iterating a dict yields its keys. -/
def pyJoinComma : PyVal → Except PyErr String
  | .list xs => (joinStrs xs).map (fun l => ", ".intercalate l)
  | .str s => .ok (", ".intercalate (s.data.map String.singleton))
  | .dict kvs => .ok (", ".intercalate (kvs.map Prod.fst))
  | _ => .error .typeError

namespace BusinessQuery

/-- The `business_data` dict built by `agent_invocation`
(business-query-generator/app.py lines 109-114); field values are whatever
`payload.get` returned, hence arbitrary Python values. -/
structure BusinessData where
  summary : PyVal
  goals : PyVal
  existingKeywords : PyVal
  domain : PyVal

/-- Output schema `UserQueriesOutput` (app.py lines 29-30); the agent
runtime validates its result against this shape before returning it. -/
structure UserQueriesOutput where
  queries : List String

/-- `model_dump()` of a `UserQueriesOutput`. -/
def UserQueriesOutput.toPy (o : UserQueriesOutput) : PyVal :=
  .dict [("queries", .list (o.queries.map PyVal.str))]

/-- The f-string `query` built in `main` (app.py lines 74-82). -/
def queryText (b : BusinessData) : String :=
  "BUSINESS SUMMARY: " ++ pyStr b.summary ++ "\n\nGOALS: " ++ pyStr b.goals ++
    "\n\nEXISTING KEYWORDS: " ++ pyStr b.existingKeywords ++ "\n\nDOMAIN: " ++
    pyStr b.domain ++
    "\n\nPlease generate 10 new user queries that would help this business appear in LLM search results."

/-- `main` (app.py lines 64-98): synthesizes the prompt and runs the agent;
its try block re-raises, so the agent outcome passes through unchanged. -/
def main (b : BusinessData) (runner : String → Except Unit UserQueriesOutput) :
    Except Unit UserQueriesOutput :=
  runner (queryText b)

/-- Extraction of `business_data` in `agent_invocation` (app.py lines
109-114): four `payload.get` calls executed before the try block, so a
non-dict payload raises AttributeError out of the handler. -/
def extractBusinessData : PyVal → Except PyErr BusinessData
  | .dict kvs =>
      .ok ⟨dictGet kvs "summary" (.str ""), dictGet kvs "goals" (.str ""),
           dictGet kvs "existingKeywords" (.str ""),
           dictGet kvs "domain" (.str "example.com")⟩
  | _ => .error .attributeError

/-- The ten sentinel strings of the static fallback (app.py line 127). -/
def fallbackQueries : List String :=
  ["error", "occurred", "during", "execution", "check", "logs", "for",
   "details", "about", "failure"]

/-- The static fallback envelope returned by the except branch of
`agent_invocation` (app.py line 127). -/
def fallbackEnvelope : PyVal :=
  .dict [("result", .dict [("queries", .list (fallbackQueries.map PyVal.str))])]

/-- `agent_invocation` (app.py lines 104-127): extracts `business_data`
outside the try block, then runs `main`; any failure inside the try is
converted to the static fallback envelope. -/
def agent_invocation (payload : PyVal)
    (runner : String → Except Unit UserQueriesOutput) : Except PyErr PyVal :=
  match extractBusinessData payload with
  | .error e => .error e
  | .ok b =>
      match main b runner with
      | .ok out => .ok (.dict [("result", out.toPy)])
      | .error _ => .ok fallbackEnvelope

end BusinessQuery

namespace DomainAnalysis

/-- Output schema `BusinessSummaryOutput` (domain-analyzer/app.py lines
26-31). -/
structure BusinessSummaryOutput where
  summary : String
  business_type : String
  target_audience : String
  key_services : List String
  industry : String

/-- `model_dump()` of a `BusinessSummaryOutput`. -/
def BusinessSummaryOutput.toPy (o : BusinessSummaryOutput) : PyVal :=
  .dict [("summary", .str o.summary), ("business_type", .str o.business_type),
         ("target_audience", .str o.target_audience),
         ("key_services", .list (o.key_services.map PyVal.str)),
         ("industry", .str o.industry)]

/-- The f-string `query` built in `main` (app.py lines 72-80). -/
def queryText (domain : PyVal) : String :=
  "Please analyze the domain: " ++ pyStr domain ++
    "\n\nUse web search to research this domain thoroughly and provide a comprehensive business analysis including:\n- What the business does and its main services/products\n- The business type and industry\n- Target audience\n- Key services offered\n\nBe thorough in your research and provide accurate information based on what you find."

/-- `main` (app.py lines 67-96): synthesizes the prompt and runs the agent;
its try block re-raises, so the agent outcome passes through unchanged. -/
def main (domain : PyVal) (runner : String → Except Unit BusinessSummaryOutput) :
    Except Unit BusinessSummaryOutput :=
  runner (queryText domain)

/-- Extraction of `domain` in `agent_invocation` (app.py line 107):
`payload.get("domain", payload.get("prompt", "example.com"))`, executed
before the try block, so a non-dict payload raises AttributeError out of
the handler. -/
def extractDomain : PyVal → Except PyErr PyVal
  | .dict kvs => .ok (dictGet kvs "domain" (dictGet kvs "prompt" (.str "example.com")))
  | _ => .error .attributeError

/-- The static fallback envelope returned by the except branch of
`agent_invocation` (app.py line 120). -/
def fallbackEnvelope : PyVal :=
  .dict [("result", .dict
    [("summary", .str "Error occurred during domain analysis"),
     ("business_type", .str "Unknown"), ("target_audience", .str "Unknown"),
     ("key_services", .list [.str "Error"]), ("industry", .str "Unknown")])]

/-- `agent_invocation` (app.py lines 102-120). -/
def agent_invocation (payload : PyVal)
    (runner : String → Except Unit BusinessSummaryOutput) : Except PyErr PyVal :=
  match extractDomain payload with
  | .error e => .error e
  | .ok d =>
      match main d runner with
      | .ok out => .ok (.dict [("result", out.toPy)])
      | .error _ => .ok fallbackEnvelope

end DomainAnalysis

namespace ContentGeneration

/-- The `content_data` dict built by `agent_invocation`
(content-generator/app_content.py lines 162-189). -/
structure ContentData where
  topics : PyVal
  platform : PyVal

/-- Output schema `ContentOutput` (app_content.py lines 27-31). -/
structure ContentOutput where
  content : List String
  platform : String
  topics_covered : List String
  content_type : String

/-- `model_dump()` of a `ContentOutput`. -/
def ContentOutput.toPy (o : ContentOutput) : PyVal :=
  .dict [("content", .list (o.content.map PyVal.str)),
         ("platform", .str o.platform),
         ("topics_covered", .list (o.topics_covered.map PyVal.str)),
         ("content_type", .str o.content_type)]

/-- The f-string `query` built in `main` (app_content.py lines 125-135). -/
def queryText (c : ContentData) : String :=
  "TOPICS: " ++ pyStr c.topics ++ "\n\nPLATFORM: " ++ pyStr c.platform ++
    "\n\nPlease generate engaging, platform-optimized content for the provided topics. Make sure the content is:\n- Appropriate for the " ++
    pyStr c.platform ++
    " platform\n- Engaging and shareable\n- Relevant to the topics provided\n- Ready to publish\n\nGenerate 2-3 pieces of content for the topics, optimized for " ++
    pyStr c.platform ++ "."

/-- `main` (app_content.py lines 114-151): synthesizes the prompt and runs
the agent; its try block re-raises, so the agent outcome passes through
unchanged. -/
def main (c : ContentData) (runner : String → Except Unit ContentOutput) :
    Except Unit ContentOutput :=
  runner (queryText c)

/-- The keyword sniffing over the fallback text (app_content.py lines
172-183): Python substring tests `"ai" in prompt.lower()` etc. decide the
topic list, and the platform is hardcoded to "reddit" on this path. -/
def sniff (t : String) : ContentData :=
  let lt := strLower t
  if strContains lt "ai" || strContains lt "artificial intelligence" then
    ⟨.list [.str "artificial intelligence"], .str "reddit"⟩
  else if strContains lt "sustainable" || strContains lt "green" then
    ⟨.list [.str "sustainable technology"], .str "reddit"⟩
  else
    ⟨.list [.str "technology", .str "innovation"], .str "reddit"⟩

/-- Extraction of `content_data` in `agent_invocation` (app_content.py
lines 162-189), executed before the try block.  A dict carrying both
"topics" and "platform" is taken directly; otherwise the fallback text
`payload.get("prompt", payload.get("domain", "technology"))` is sniffed for
keywords on its lowercased form (`.lower()` on a non-string raises
AttributeError); a non-dict payload yields the hardcoded default request. -/
def extractContentData : PyVal → Except PyErr ContentData
  | .dict kvs =>
      if hasKey kvs "topics" && hasKey kvs "platform" then
        .ok ⟨dictGet kvs "topics" (.list []), dictGet kvs "platform" (.str "reddit")⟩
      else
        match dictGet kvs "prompt" (dictGet kvs "domain" (.str "technology")) with
        | .str t => .ok (sniff t)
        | _ => .error .attributeError
  | _ => .ok ⟨.list [.str "technology", .str "innovation"], .str "reddit"⟩

/-- The static fallback envelope returned by the except branch of
`agent_invocation` (app_content.py line 202). -/
def fallbackEnvelope : PyVal :=
  .dict [("result", .dict
    [("content", .list [.str "Error occurred during content generation"]),
     ("platform", .str "unknown"), ("topics_covered", .list []),
     ("content_type", .str "error")])]

/-- `agent_invocation` (app_content.py lines 157-202). -/
def agent_invocation (payload : PyVal)
    (runner : String → Except Unit ContentOutput) : Except PyErr PyVal :=
  match extractContentData payload with
  | .error e => .error e
  | .ok c =>
      match main c runner with
      | .ok out => .ok (.dict [("result", out.toPy)])
      | .error _ => .ok fallbackEnvelope

end ContentGeneration

namespace ContentOptimization

/-- The `content_data` dict built by `agent_invocation`
(content-optimization/content_optimize.py lines 123-128). -/
structure ContentData where
  content : PyVal
  title : PyVal
  meta : PyVal
  topics : PyVal

/-- Output schema `OptimizedContentOutput` (content_optimize.py lines
29-30). -/
structure OptimizedContentOutput where
  content : String

/-- `model_dump()` of an `OptimizedContentOutput`, i.e. the mapping form of
the response shape. -/
def OptimizedContentOutput.toPy (o : OptimizedContentOutput) : PyVal :=
  .dict [("content", .str o.content)]

/-- The f-string `query` built in `main` (content_optimize.py lines 82-95);
the `", ".join` over the topics value can raise TypeError, which escapes
`main` and is caught by the handler's try block. -/
def queryText (c : ContentData) : Except PyErr String :=
  match pyJoinComma c.topics with
  | .error e => .error e
  | .ok ts =>
      .ok ("Please optimize the following blog post content:\n\nTITLE: " ++
        pyStr c.title ++ "\nMETA DESCRIPTION: " ++ pyStr c.meta ++
        "\nTOPICS: " ++ ts ++ "\n\nCONTENT TO OPTIMIZE:\n" ++ pyStr c.content ++
        "\n\nPlease optimize this content for better readability, engagement, and SEO while maintaining the original message and tone. Focus on improving structure, flow, and incorporating the provided topics naturally throughout the content.\n\nIMPORTANT: Return the optimized content in MARKDOWN format with proper headings (# ## ###), emphasis (**bold**, *italic*), lists, and other markdown elements for better structure and readability.\n\nIf you need additional information about any of the topics or want to ensure you\x27re using the most current and accurate information, feel free to use web search to research the topics and enhance the content accordingly.")

/-- `main` (content_optimize.py lines 72-112): synthesizes the prompt, runs
the agent, and on success returns only `final_output.content` (line 108), a
plain string; a prompt-construction fault or agent failure both surface as
a failure to the caller. -/
def main (c : ContentData) (runner : String → Except Unit OptimizedContentOutput) :
    Except Unit String :=
  match queryText c with
  | .error _ => .error ()
  | .ok q => (runner q).map OptimizedContentOutput.content

/-- Extraction of `content_data` in `agent_invocation` (content_optimize.py
lines 123-128): four `payload.get` calls executed before the try block, so
a non-dict payload raises AttributeError out of the handler. -/
def extractContentData : PyVal → Except PyErr ContentData
  | .dict kvs =>
      .ok ⟨dictGet kvs "content" (.str ""), dictGet kvs "title" (.str ""),
           dictGet kvs "meta" (.str ""), dictGet kvs "topics" (.list [])⟩
  | _ => .error .attributeError

/-- The static fallback envelope returned by the except branch of
`agent_invocation` (content_optimize.py line 138). -/
def fallbackEnvelope : PyVal :=
  .dict [("result", .str "Error occurred during content optimization. Please try again.")]

/-- `agent_invocation` (content_optimize.py lines 118-138): on success the
result string is wrapped directly, without `model_dump`. -/
def agent_invocation (payload : PyVal)
    (runner : String → Except Unit OptimizedContentOutput) : Except PyErr PyVal :=
  match extractContentData payload with
  | .error e => .error e
  | .ok c =>
      match main c runner with
      | .ok s => .ok (.dict [("result", .str s)])
      | .error _ => .ok fallbackEnvelope

end ContentOptimization

/-- An agent that answers every business-query prompt with one query. -/
def okQueriesRunner : String → Except Unit BusinessQuery.UserQueriesOutput :=
  fun _ => Except.ok ⟨["q1"]⟩

/-- An agent whose business-query call always fails. -/
def failQueriesRunner : String → Except Unit BusinessQuery.UserQueriesOutput :=
  fun _ => Except.error ()

/-- An agent that answers every domain-analysis prompt with a fixed
summary. -/
def okSummaryRunner : String → Except Unit DomainAnalysis.BusinessSummaryOutput :=
  fun _ => Except.ok ⟨"A shoe store", "E-commerce Store", "Consumers", ["Shoes"], "Retail"⟩

/-- An agent whose domain-analysis call always fails. -/
def failSummaryRunner : String → Except Unit DomainAnalysis.BusinessSummaryOutput :=
  fun _ => Except.error ()

/-- An agent that answers every content-generation prompt with one post. -/
def okContentRunner : String → Except Unit ContentGeneration.ContentOutput :=
  fun _ => Except.ok ⟨["post"], "reddit", ["technology"], "reddit_posts"⟩

/-- An agent that answers every content-optimization prompt with a fixed
markdown string. -/
def okMarkdownRunner : String → Except Unit ContentOptimization.OptimizedContentOutput :=
  fun _ => Except.ok ⟨"# Optimized"⟩

/-- A second content-optimization agent with a different markdown answer. -/
def sectionMarkdownRunner : String → Except Unit ContentOptimization.OptimizedContentOutput :=
  fun _ => Except.ok ⟨"## Section"⟩

/-! Helper lemmas shared by the claim theorems. -/

theorem except_match_isOk {α : Type} (x : Except Unit α) (f : α → PyVal) (fb : PyVal) :
    (match x with
     | Except.ok out => Except.ok (f out)
     | Except.error _ => Except.ok fb : Except PyErr PyVal).isOk = true := by
  cases x <;> rfl

theorem charsPrefix_iff (n h : List Char) : charsPrefix n h = true ↔ ∃ r, h = n ++ r := by
  induction n generalizing h with
  | nil => simp [charsPrefix]
  | cons a as ih =>
    cases h with
    | nil =>
      simp [charsPrefix]
    | cons b bs =>
      simp only [charsPrefix, Bool.and_eq_true, beq_iff_eq, ih, List.cons_append]
      constructor
      · rintro ⟨rfl, r, rfl⟩
        exact ⟨r, rfl⟩
      · rintro ⟨r, hr⟩
        injection hr with h1 h2
        exact ⟨h1.symm, r, h2⟩

theorem charsContains_iff (n h : List Char) :
    charsContains n h = true ↔ ∃ l r, h = l ++ n ++ r := by
  induction h with
  | nil =>
    cases n with
    | nil => simp [charsContains, List.isEmpty]
    | cons a as => simp [charsContains, List.isEmpty]
  | cons c rest ih =>
    simp only [charsContains, Bool.or_eq_true, charsPrefix_iff, ih]
    constructor
    · rintro (⟨r, hr⟩ | ⟨l, r, hlr⟩)
      · exact ⟨[], r, by simp [hr]⟩
      · exact ⟨c :: l, r, by simp [hlr]⟩
    · rintro ⟨l, r, hlr⟩
      cases l with
      | nil =>
        exact Or.inl ⟨r, by simpa using hlr⟩
      | cons x xs =>
        injection hlr with h1 h2
        exact Or.inr ⟨xs, r, h2⟩

theorem strContains_trans (hay n₁ n₂ : String) (h₁ : strContains n₁ n₂ = true)
    (h₂ : strContains hay n₁ = true) : strContains hay n₂ = true := by
  unfold strContains at h₁ h₂ ⊢
  rw [charsContains_iff] at h₁ h₂ ⊢
  obtain ⟨l, r, hl⟩ := h₁
  obtain ⟨L, R, hL⟩ := h₂
  refine ⟨L ++ l, r ++ R, ?_⟩
  rw [hL, hl]
  simp [List.append_assoc]

theorem joinStrs_map_str (ts : List String) : joinStrs (ts.map PyVal.str) = Except.ok ts := by
  induction ts with
  | nil => rfl
  | cons t rest ih => simp [joinStrs, ih, Except.map]

/-- C10: the business-query assistant's static fallback envelope carries a
"queries" list of exactly 10 strings, matching the ten-query cardinality the
assistant's instructions promise. -/
theorem C10_fallback_has_ten_queries :
    BusinessQuery.fallbackQueries.length = 10 ∧
    BusinessQuery.fallbackEnvelope =
      PyVal.dict [("result", PyVal.dict
        [("queries", PyVal.list (BusinessQuery.fallbackQueries.map PyVal.str))])] :=
  ⟨rfl, rfl⟩

/-- C7: each assistant's prompt synthesizer is a deterministic function of
the request fields: two invocations on identical requests yield identical
prompt text (business-query, domain-analysis, content-generation and
content-optimization synthesizers). -/
theorem C7_prompt_determinism :
    (∀ a b : BusinessQuery.BusinessData, a = b →
        BusinessQuery.queryText a = BusinessQuery.queryText b) ∧
    (∀ a b : PyVal, a = b → DomainAnalysis.queryText a = DomainAnalysis.queryText b) ∧
    (∀ a b : ContentGeneration.ContentData, a = b →
        ContentGeneration.queryText a = ContentGeneration.queryText b) ∧
    (∀ a b : ContentOptimization.ContentData, a = b →
        ContentOptimization.queryText a = ContentOptimization.queryText b) :=
  ⟨fun _ _ h => h ▸ rfl, fun _ _ h => h ▸ rfl, fun _ _ h => h ▸ rfl, fun _ _ h => h ▸ rfl⟩

/-- Witness for C7 at a concrete business-query request. -/
theorem C7_witness :
    BusinessQuery.queryText ⟨PyVal.str "a", PyVal.str "b", PyVal.str "c", PyVal.str "d"⟩ =
      BusinessQuery.queryText ⟨PyVal.str "a", PyVal.str "b", PyVal.str "c", PyVal.str "d"⟩ :=
  C7_prompt_determinism.1
    ⟨PyVal.str "a", PyVal.str "b", PyVal.str "c", PyVal.str "d"⟩
    ⟨PyVal.str "a", PyVal.str "b", PyVal.str "c", PyVal.str "d"⟩ rfl

/-- C1 counterexample: the business-query invocation handler does raise on
a non-mapping payload: `payload.get` on the integer payload 0 raises
AttributeError before the try block is entered, for any agent. -/
theorem C1_counterexample :
    BusinessQuery.agent_invocation (PyVal.int 0) okQueriesRunner =
      Except.error PyErr.attributeError :=
  rfl

/-- C1 amended: for every mapping payload the business-query and
domain-analysis invocation handlers never raise (every fault below the
handler yields an envelope), but a non-mapping payload raises a type error
during payload adaptation, which happens before the protected region. -/
theorem C1_amended_totality_on_mappings :
    (∀ (kvs : List (String × PyVal))
        (runner : String → Except Unit BusinessQuery.UserQueriesOutput),
        (BusinessQuery.agent_invocation (PyVal.dict kvs) runner).isOk = true) ∧
    (∀ (kvs : List (String × PyVal))
        (runner : String → Except Unit DomainAnalysis.BusinessSummaryOutput),
        (DomainAnalysis.agent_invocation (PyVal.dict kvs) runner).isOk = true) ∧
    (∀ (v : PyVal) (runner : String → Except Unit BusinessQuery.UserQueriesOutput),
        v.isDict = false →
        BusinessQuery.agent_invocation v runner = Except.error PyErr.attributeError) ∧
    (∀ (v : PyVal) (runner : String → Except Unit DomainAnalysis.BusinessSummaryOutput),
        v.isDict = false →
        DomainAnalysis.agent_invocation v runner = Except.error PyErr.attributeError) := by
  refine ⟨?_, ?_, ?_, ?_⟩
  · intro kvs runner
    cases h : BusinessQuery.main
        ⟨dictGet kvs "summary" (PyVal.str ""), dictGet kvs "goals" (PyVal.str ""),
         dictGet kvs "existingKeywords" (PyVal.str ""),
         dictGet kvs "domain" (PyVal.str "example.com")⟩ runner with
    | error e =>
        simp [BusinessQuery.agent_invocation, BusinessQuery.extractBusinessData, h,
          Except.isOk, Except.toBool]
    | ok out =>
        simp [BusinessQuery.agent_invocation, BusinessQuery.extractBusinessData, h,
          Except.isOk, Except.toBool]
  · intro kvs runner
    cases h : DomainAnalysis.main
        (dictGet kvs "domain" (dictGet kvs "prompt" (PyVal.str "example.com"))) runner with
    | error e =>
        simp [DomainAnalysis.agent_invocation, DomainAnalysis.extractDomain, h,
          Except.isOk, Except.toBool]
    | ok out =>
        simp [DomainAnalysis.agent_invocation, DomainAnalysis.extractDomain, h,
          Except.isOk, Except.toBool]
  · intro v runner h
    cases v with
    | dict kvs => simp [PyVal.isDict] at h
    | str s => rfl
    | int n => rfl
    | none => rfl
    | list xs => rfl
  · intro v runner h
    cases v with
    | dict kvs => simp [PyVal.isDict] at h
    | str s => rfl
    | int n => rfl
    | none => rfl
    | list xs => rfl

/-- Witness for C1 at concrete inputs: a mapping payload yields an
envelope, a string payload raises. -/
theorem C1_witness :
    (BusinessQuery.agent_invocation (PyVal.dict [("summary", PyVal.str "s")])
        okQueriesRunner).isOk = true ∧
    BusinessQuery.agent_invocation (PyVal.str "x") okQueriesRunner =
      Except.error PyErr.attributeError :=
  ⟨C1_amended_totality_on_mappings.1 [("summary", PyVal.str "s")] okQueriesRunner,
   C1_amended_totality_on_mappings.2.2.1 (PyVal.str "x") okQueriesRunner rfl⟩

/-- C3: whenever the agent call fails, the business-query and
domain-analysis handlers return exactly their static fallback envelope; in
particular for the domain-analysis payload with domain "example.com" the
output is exactly the documented envelope of "Unknown"-valued fields. -/
theorem C3_fallback_on_agent_failure :
    (∀ (payload d : PyVal) (runner : String → Except Unit DomainAnalysis.BusinessSummaryOutput),
        DomainAnalysis.extractDomain payload = Except.ok d →
        runner (DomainAnalysis.queryText d) = Except.error () →
        DomainAnalysis.agent_invocation payload runner =
          Except.ok DomainAnalysis.fallbackEnvelope) ∧
    (∀ runner : String → Except Unit DomainAnalysis.BusinessSummaryOutput,
        runner (DomainAnalysis.queryText (PyVal.str "example.com")) = Except.error () →
        DomainAnalysis.agent_invocation
            (PyVal.dict [("domain", PyVal.str "example.com")]) runner =
          Except.ok (PyVal.dict [("result", PyVal.dict
            [("summary", PyVal.str "Error occurred during domain analysis"),
             ("business_type", PyVal.str "Unknown"),
             ("target_audience", PyVal.str "Unknown"),
             ("key_services", PyVal.list [PyVal.str "Error"]),
             ("industry", PyVal.str "Unknown")])])) ∧
    (∀ (payload : PyVal) (b : BusinessQuery.BusinessData)
        (runner : String → Except Unit BusinessQuery.UserQueriesOutput),
        BusinessQuery.extractBusinessData payload = Except.ok b →
        runner (BusinessQuery.queryText b) = Except.error () →
        BusinessQuery.agent_invocation payload runner =
          Except.ok BusinessQuery.fallbackEnvelope) := by
  refine ⟨?_, ?_, ?_⟩
  · intro payload d runner had hrun
    simp only [DomainAnalysis.agent_invocation, DomainAnalysis.main, had, hrun]
  · intro runner hrun
    have hex : DomainAnalysis.extractDomain
        (PyVal.dict [("domain", PyVal.str "example.com")]) =
        Except.ok (PyVal.str "example.com") := rfl
    simp only [DomainAnalysis.agent_invocation, DomainAnalysis.main, hex, hrun,
      DomainAnalysis.fallbackEnvelope]
  · intro payload b runner had hrun
    simp only [BusinessQuery.agent_invocation, BusinessQuery.main, had, hrun]

/-- Witness for C3: the concrete domain-analysis scenario of the claim,
with an agent that always fails. -/
theorem C3_witness :
    DomainAnalysis.agent_invocation
        (PyVal.dict [("domain", PyVal.str "example.com")]) failSummaryRunner =
      Except.ok (PyVal.dict [("result", PyVal.dict
        [("summary", PyVal.str "Error occurred during domain analysis"),
         ("business_type", PyVal.str "Unknown"),
         ("target_audience", PyVal.str "Unknown"),
         ("key_services", PyVal.list [PyVal.str "Error"]),
         ("industry", PyVal.str "Unknown")])]) :=
  C3_fallback_on_agent_failure.2.1 failSummaryRunner rfl

/-- C2 counterexample: the fallback text "sustainable" contains the keyword
"sustainable", yet the adapter returns topics = ["artificial intelligence"]
rather than ["sustainable technology"], because the substring check
`"ai" in prompt.lower()` already fires on sust-AI-nable. -/
theorem C2_counterexample :
    strContains (strLower "sustainable") "sustainable" = true ∧
    ContentGeneration.extractContentData
        (PyVal.dict [("prompt", PyVal.str "sustainable")]) =
      Except.ok ⟨PyVal.list [PyVal.str "artificial intelligence"], PyVal.str "reddit"⟩ ∧
    ContentGeneration.extractContentData
        (PyVal.dict [("prompt", PyVal.str "sustainable")]) ≠
      Except.ok ⟨PyVal.list [PyVal.str "sustainable technology"], PyVal.str "reddit"⟩ := by
  refine ⟨by decide, rfl, ?_⟩
  intro h
  have hAS : Except.ok
      (⟨PyVal.list [PyVal.str "artificial intelligence"], PyVal.str "reddit"⟩ :
        ContentGeneration.ContentData) =
      Except.ok
      (⟨PyVal.list [PyVal.str "sustainable technology"], PyVal.str "reddit"⟩ :
        ContentGeneration.ContentData) := h
  simp at hAS

/-- C2 amended: on the sniffing path the topics are decided by Python
substring tests on the lowercased fallback text: a text containing
"artificial intelligence" yields ["artificial intelligence"]; a text
containing "sustainable" ALSO yields ["artificial intelligence"], because
"sustainable" contains the substring "ai"; indeed any text containing the
substring "ai" yields ["artificial intelligence"]; ["sustainable
technology"] is produced via "green" when "ai" and "artificial
intelligence" are absent; and the generic default pair ["technology",
"innovation"] is produced exactly when the text contains none of the
substrings "ai", "artificial intelligence" and "green" (both directions of
the equivalence are proved). -/
theorem C2_amended_keyword_sniffing :
    ∀ (kvs : List (String × PyVal)) (t : String) (c : ContentGeneration.ContentData),
      (hasKey kvs "topics" && hasKey kvs "platform") = false →
      dictGet kvs "prompt" (dictGet kvs "domain" (PyVal.str "technology")) = PyVal.str t →
      ContentGeneration.extractContentData (PyVal.dict kvs) = Except.ok c →
      (strContains (strLower t) "artificial intelligence" = true →
         c.topics = PyVal.list [PyVal.str "artificial intelligence"]) ∧
      (strContains (strLower t) "sustainable" = true →
         c.topics = PyVal.list [PyVal.str "artificial intelligence"]) ∧
      (strContains (strLower t) "ai" = true →
         c.topics = PyVal.list [PyVal.str "artificial intelligence"]) ∧
      (strContains (strLower t) "green" = true →
       strContains (strLower t) "ai" = false →
       strContains (strLower t) "artificial intelligence" = false →
         c.topics = PyVal.list [PyVal.str "sustainable technology"]) ∧
      (c.topics = PyVal.list [PyVal.str "technology", PyVal.str "innovation"] ↔
         (strContains (strLower t) "ai" = false ∧
          strContains (strLower t) "artificial intelligence" = false ∧
          strContains (strLower t) "green" = false)) := by
  intro kvs t c hkeys hprompt hex
  simp only [ContentGeneration.extractContentData, hkeys, Bool.false_eq_true, if_false,
    hprompt] at hex
  injection hex with hc
  subst hc
  refine ⟨?_, ?_, ?_, ?_, ?_⟩
  · intro hAIp
    simp [ContentGeneration.sniff, hAIp]
  · intro hSus
    have hai : strContains (strLower t) "ai" = true :=
      strContains_trans (strLower t) "sustainable" "ai" (by decide) hSus
    simp [ContentGeneration.sniff, hai]
  · intro hai
    simp [ContentGeneration.sniff, hai]
  · intro hgreen hai hAIp
    simp [ContentGeneration.sniff, hai, hAIp, hgreen]
  · constructor
    · intro hdef
      have hai : strContains (strLower t) "ai" = false := by
        cases h : strContains (strLower t) "ai"
        · rfl
        · simp [ContentGeneration.sniff, h] at hdef
      have hAIp : strContains (strLower t) "artificial intelligence" = false := by
        cases h : strContains (strLower t) "artificial intelligence"
        · rfl
        · simp [ContentGeneration.sniff, h] at hdef
      have hsus : strContains (strLower t) "sustainable" = false := by
        cases h : strContains (strLower t) "sustainable"
        · rfl
        · exact absurd (strContains_trans (strLower t) "sustainable" "ai" (by decide) h)
            (by simp [hai])
      have hgreen : strContains (strLower t) "green" = false := by
        cases h : strContains (strLower t) "green"
        · rfl
        · simp [ContentGeneration.sniff, hai, hAIp, hsus, h] at hdef
      exact ⟨hai, hAIp, hgreen⟩
    · rintro ⟨hai, hAIp, hgreen⟩
      have hsus : strContains (strLower t) "sustainable" = false := by
        cases h : strContains (strLower t) "sustainable"
        · rfl
        · exact absurd (strContains_trans (strLower t) "sustainable" "ai" (by decide) h)
            (by simp [hai])
      simp [ContentGeneration.sniff, hai, hAIp, hsus, hgreen]

/-- Witness for C2 at a concrete input: a fallback text containing
"Artificial Intelligence" yields topics = ["artificial intelligence"]. -/
theorem C2_witness :
    ContentGeneration.extractContentData
        (PyVal.dict [("prompt", PyVal.str "about Artificial Intelligence")]) =
      Except.ok ⟨PyVal.list [PyVal.str "artificial intelligence"], PyVal.str "reddit"⟩ ∧
    (⟨PyVal.list [PyVal.str "artificial intelligence"], PyVal.str "reddit"⟩ :
        ContentGeneration.ContentData).topics =
      PyVal.list [PyVal.str "artificial intelligence"] :=
  ⟨rfl,
   (C2_amended_keyword_sniffing [("prompt", PyVal.str "about Artificial Intelligence")]
      "about Artificial Intelligence"
      ⟨PyVal.list [PyVal.str "artificial intelligence"], PyVal.str "reddit"⟩
      rfl rfl rfl).1 (by decide)⟩

/-- C9: whenever a content-generation payload is a mapping lacking the
"topics" key, the adapted request's platform is "reddit", even if the
payload carries an explicit "platform" value. -/
theorem C9_platform_defaults_to_reddit :
    ∀ (kvs : List (String × PyVal)) (c : ContentGeneration.ContentData),
      hasKey kvs "topics" = false →
      ContentGeneration.extractContentData (PyVal.dict kvs) = Except.ok c →
      c.platform = PyVal.str "reddit" := by
  intro kvs c h hex
  simp only [ContentGeneration.extractContentData, h, Bool.false_and,
    Bool.false_eq_true, if_false] at hex
  cases hp : dictGet kvs "prompt" (dictGet kvs "domain" (PyVal.str "technology")) with
  | str t =>
      rw [hp] at hex
      simp only [] at hex
      injection hex with hc
      rw [← hc]
      simp only [ContentGeneration.sniff]
      split
      · rfl
      · split <;> rfl
  | int n => rw [hp] at hex; exact absurd hex (by simp)
  | none => rw [hp] at hex; exact absurd hex (by simp)
  | list xs => rw [hp] at hex; exact absurd hex (by simp)
  | dict kvs2 => rw [hp] at hex; exact absurd hex (by simp)

/-- Witness for C9: a payload with an explicit platform "twitter" but no
"topics" key still yields platform "reddit". -/
theorem C9_witness :
    ContentGeneration.extractContentData
        (PyVal.dict [("platform", PyVal.str "twitter"), ("prompt", PyVal.str "hello")]) =
      Except.ok ⟨PyVal.list [PyVal.str "technology", PyVal.str "innovation"],
        PyVal.str "reddit"⟩ ∧
    (⟨PyVal.list [PyVal.str "technology", PyVal.str "innovation"], PyVal.str "reddit"⟩ :
        ContentGeneration.ContentData).platform = PyVal.str "reddit" :=
  ⟨rfl,
   C9_platform_defaults_to_reddit
     [("platform", PyVal.str "twitter"), ("prompt", PyVal.str "hello")]
     ⟨PyVal.list [PyVal.str "technology", PyVal.str "innovation"], PyVal.str "reddit"⟩
     rfl rfl⟩

/-- C4 counterexample: for the content-optimization assistant a successful
agent call with the Response-shape value OptimizedContentOutput(content =
"# Optimized") yields the envelope with "result" bound to the bare string,
not to the (unmodified) shape value itself: the handler unwraps the content
field. -/
theorem C4_counterexample :
    ContentOptimization.agent_invocation (PyVal.dict []) okMarkdownRunner =
      Except.ok (PyVal.dict [("result", PyVal.str "# Optimized")]) ∧
    PyVal.dict [("result", PyVal.str "# Optimized")] ≠
      PyVal.dict [("result", ContentOptimization.OptimizedContentOutput.toPy
        ⟨"# Optimized"⟩)] := by
  constructor
  · rfl
  · simp [ContentOptimization.OptimizedContentOutput.toPy]

/-- C4 amended: when the agent succeeds with a Response-shape-conforming
value, the business-query, domain-analysis and content-generation handlers
return exactly the envelope with "result" bound to the mapping form
(model_dump) of that value, unmodified; the content-optimization handler
instead returns the envelope with "result" bound to the value's content
string (the markdown text extracted from the single-field shape). -/
theorem C4_amended_success_envelopes :
    (∀ (payload : PyVal) (b : BusinessQuery.BusinessData)
        (runner : String → Except Unit BusinessQuery.UserQueriesOutput)
        (out : BusinessQuery.UserQueriesOutput),
        BusinessQuery.extractBusinessData payload = Except.ok b →
        runner (BusinessQuery.queryText b) = Except.ok out →
        BusinessQuery.agent_invocation payload runner =
          Except.ok (PyVal.dict [("result", BusinessQuery.UserQueriesOutput.toPy out)])) ∧
    (∀ (payload d : PyVal)
        (runner : String → Except Unit DomainAnalysis.BusinessSummaryOutput)
        (out : DomainAnalysis.BusinessSummaryOutput),
        DomainAnalysis.extractDomain payload = Except.ok d →
        runner (DomainAnalysis.queryText d) = Except.ok out →
        DomainAnalysis.agent_invocation payload runner =
          Except.ok (PyVal.dict
            [("result", DomainAnalysis.BusinessSummaryOutput.toPy out)])) ∧
    (∀ (payload : PyVal) (c : ContentGeneration.ContentData)
        (runner : String → Except Unit ContentGeneration.ContentOutput)
        (out : ContentGeneration.ContentOutput),
        ContentGeneration.extractContentData payload = Except.ok c →
        runner (ContentGeneration.queryText c) = Except.ok out →
        ContentGeneration.agent_invocation payload runner =
          Except.ok (PyVal.dict [("result", ContentGeneration.ContentOutput.toPy out)])) ∧
    (∀ (payload : PyVal) (c : ContentOptimization.ContentData) (q : String)
        (runner : String → Except Unit ContentOptimization.OptimizedContentOutput)
        (out : ContentOptimization.OptimizedContentOutput),
        ContentOptimization.extractContentData payload = Except.ok c →
        ContentOptimization.queryText c = Except.ok q →
        runner q = Except.ok out →
        ContentOptimization.agent_invocation payload runner =
          Except.ok (PyVal.dict [("result", PyVal.str out.content)])) := by
  refine ⟨?_, ?_, ?_, ?_⟩
  · intro payload b runner out h1 h2
    simp only [BusinessQuery.agent_invocation, BusinessQuery.main, h1, h2]
  · intro payload d runner out h1 h2
    simp only [DomainAnalysis.agent_invocation, DomainAnalysis.main, h1, h2]
  · intro payload c runner out h1 h2
    simp only [ContentGeneration.agent_invocation, ContentGeneration.main, h1, h2]
  · intro payload c q runner out h1 h2 h3
    simp only [ContentOptimization.agent_invocation, ContentOptimization.main, h1, h2, h3,
      Except.map]

/-- Witness for C4 at concrete inputs: a business-query success is wrapped
as its mapping form, a content-optimization success as the bare string. -/
theorem C4_witness :
    BusinessQuery.agent_invocation (PyVal.dict [("summary", PyVal.str "We sell shoes")])
        okQueriesRunner =
      Except.ok (PyVal.dict [("result",
        PyVal.dict [("queries", PyVal.list [PyVal.str "q1"])])]) ∧
    ContentOptimization.agent_invocation (PyVal.dict [("title", PyVal.str "T")])
        okMarkdownRunner =
      Except.ok (PyVal.dict [("result", PyVal.str "# Optimized")]) :=
  ⟨C4_amended_success_envelopes.1 (PyVal.dict [("summary", PyVal.str "We sell shoes")])
     _ okQueriesRunner ⟨["q1"]⟩ rfl rfl,
   C4_amended_success_envelopes.2.2.2 (PyVal.dict [("title", PyVal.str "T")])
     _ _ okMarkdownRunner ⟨"# Optimized"⟩ rfl rfl rfl⟩

/-- C5: every successful content-optimization agent call yields an envelope
whose "result" value is the plain markdown string returned by the agent,
never a mapping. -/
theorem C5_result_is_plain_string :
    ∀ (payload : PyVal) (c : ContentOptimization.ContentData) (q : String)
      (runner : String → Except Unit ContentOptimization.OptimizedContentOutput)
      (out : ContentOptimization.OptimizedContentOutput),
      ContentOptimization.extractContentData payload = Except.ok c →
      ContentOptimization.queryText c = Except.ok q →
      runner q = Except.ok out →
      ContentOptimization.agent_invocation payload runner =
        Except.ok (PyVal.dict [("result", PyVal.str out.content)]) ∧
      ∀ kvs : List (String × PyVal), PyVal.str out.content ≠ PyVal.dict kvs := by
  intro payload c q runner out h1 h2 h3
  refine ⟨?_, fun kvs h => PyVal.noConfusion h⟩
  simp only [ContentOptimization.agent_invocation, ContentOptimization.main, h1, h2, h3,
    Except.map]

/-- Witness for C5 at a concrete input. -/
theorem C5_witness :
    ContentOptimization.agent_invocation
        (PyVal.dict [("content", PyVal.str "hello world")]) sectionMarkdownRunner =
      Except.ok (PyVal.dict [("result", PyVal.str "## Section")]) :=
  (C5_result_is_plain_string (PyVal.dict [("content", PyVal.str "hello world")])
     _ _ sectionMarkdownRunner ⟨"## Section"⟩ rfl rfl rfl).1

theorem strAppears_self (n : String) : strAppears n n :=
  ⟨"", "", by simp⟩

theorem strAppears_append_left (n h r : String) (hh : strAppears n h) :
    strAppears n (h ++ r) := by
  obtain ⟨l, m, rfl⟩ := hh
  exact ⟨l, m ++ r, by simp [String.append_assoc]⟩

theorem strAppears_append_right (n l h : String) (hh : strAppears n h) :
    strAppears n (l ++ h) := by
  obtain ⟨a, b, rfl⟩ := hh
  exact ⟨l ++ a, b, by simp [String.append_assoc]⟩

/-- C8: for every request of each of the four assistants, every request
field appears in the synthesized prompt text: string fields verbatim, and
the topics list as its rendered form (the Python str() of the list for the
content generator, the comma-join for the content optimizer). -/
theorem C8_fields_appear_in_prompt :
    (∀ s g k d : String,
        strAppears s (BusinessQuery.queryText
          ⟨PyVal.str s, PyVal.str g, PyVal.str k, PyVal.str d⟩) ∧
        strAppears g (BusinessQuery.queryText
          ⟨PyVal.str s, PyVal.str g, PyVal.str k, PyVal.str d⟩) ∧
        strAppears k (BusinessQuery.queryText
          ⟨PyVal.str s, PyVal.str g, PyVal.str k, PyVal.str d⟩) ∧
        strAppears d (BusinessQuery.queryText
          ⟨PyVal.str s, PyVal.str g, PyVal.str k, PyVal.str d⟩)) ∧
    (∀ d : String, strAppears d (DomainAnalysis.queryText (PyVal.str d))) ∧
    (∀ (ts : List String) (p : String),
        strAppears (pyStr (PyVal.list (ts.map PyVal.str)))
          (ContentGeneration.queryText
            ⟨PyVal.list (ts.map PyVal.str), PyVal.str p⟩) ∧
        strAppears p (ContentGeneration.queryText
          ⟨PyVal.list (ts.map PyVal.str), PyVal.str p⟩)) ∧
    (∀ (c t m : String) (ts : List String),
        ∃ q, ContentOptimization.queryText
            ⟨PyVal.str c, PyVal.str t, PyVal.str m, PyVal.list (ts.map PyVal.str)⟩ =
          Except.ok q ∧
        strAppears t q ∧ strAppears m q ∧
        strAppears (", ".intercalate ts) q ∧ strAppears c q) := by
  refine ⟨?_, ?_, ?_, ?_⟩
  · intro s g k d
    refine ⟨?_, ?_, ?_, ?_⟩ <;> simp only [BusinessQuery.queryText, pyStr]
    · exact strAppears_append_left _ _ _ (strAppears_append_left _ _ _
        (strAppears_append_left _ _ _ (strAppears_append_left _ _ _
        (strAppears_append_left _ _ _ (strAppears_append_left _ _ _
        (strAppears_append_left _ _ _
          (strAppears_append_right _ _ _ (strAppears_self _))))))))
    · exact strAppears_append_left _ _ _ (strAppears_append_left _ _ _
        (strAppears_append_left _ _ _ (strAppears_append_left _ _ _
        (strAppears_append_left _ _ _
          (strAppears_append_right _ _ _ (strAppears_self _))))))
    · exact strAppears_append_left _ _ _ (strAppears_append_left _ _ _
        (strAppears_append_left _ _ _
          (strAppears_append_right _ _ _ (strAppears_self _))))
    · exact strAppears_append_left _ _ _
        (strAppears_append_right _ _ _ (strAppears_self _))
  · intro d
    simp only [DomainAnalysis.queryText, pyStr]
    exact strAppears_append_left _ _ _
      (strAppears_append_right _ _ _ (strAppears_self _))
  · intro ts p
    constructor <;> simp only [ContentGeneration.queryText, pyStr]
    · exact strAppears_append_left _ _ _ (strAppears_append_left _ _ _
        (strAppears_append_left _ _ _ (strAppears_append_left _ _ _
        (strAppears_append_left _ _ _ (strAppears_append_left _ _ _
        (strAppears_append_left _ _ _
          (strAppears_append_right _ _ _ (strAppears_self _))))))))
    · exact strAppears_append_left _ _ _ (strAppears_append_left _ _ _
        (strAppears_append_left _ _ _ (strAppears_append_left _ _ _
        (strAppears_append_left _ _ _
          (strAppears_append_right _ _ _ (strAppears_self _))))))
  · intro c t m ts
    have hj : pyJoinComma (PyVal.list (ts.map PyVal.str)) =
        Except.ok (", ".intercalate ts) := by
      simp [pyJoinComma, joinStrs_map_str, Except.map]
    have hq : ∃ q, ContentOptimization.queryText
        ⟨PyVal.str c, PyVal.str t, PyVal.str m, PyVal.list (ts.map PyVal.str)⟩ =
        Except.ok q := by
      simp only [ContentOptimization.queryText, hj]
      exact ⟨_, rfl⟩
    obtain ⟨q, hq⟩ := hq
    have hq2 := hq
    simp only [ContentOptimization.queryText, hj, Except.ok.injEq] at hq2
    subst hq2
    refine ⟨_, hq, ?_, ?_, ?_, ?_⟩ <;> simp only [pyStr]
    · exact strAppears_append_left _ _ _ (strAppears_append_left _ _ _
        (strAppears_append_left _ _ _ (strAppears_append_left _ _ _
        (strAppears_append_left _ _ _ (strAppears_append_left _ _ _
        (strAppears_append_left _ _ _
          (strAppears_append_right _ _ _ (strAppears_self _))))))))
    · exact strAppears_append_left _ _ _ (strAppears_append_left _ _ _
        (strAppears_append_left _ _ _ (strAppears_append_left _ _ _
        (strAppears_append_left _ _ _
          (strAppears_append_right _ _ _ (strAppears_self _))))))
    · exact strAppears_append_left _ _ _ (strAppears_append_left _ _ _
        (strAppears_append_left _ _ _
          (strAppears_append_right _ _ _ (strAppears_self _))))
    · exact strAppears_append_left _ _ _
        (strAppears_append_right _ _ _ (strAppears_self _))
